import Mathlib

/-!
Verification of the taxonomy-gated routing pipeline of the LibrarAI
(Alexandria Library) repository.

The development shallowly embeds the routing core:

* `src/app/agents/taxonomy_v2.py` — artifact-based taxonomy gate
  (`TaxonomyGateV2`): candidate books, candidate chapters, book validation,
  taxonomy/artifact versions.
* `src/app/agents/reading_router.py` — `ReadingRouter._llm_route` and
  `ReadingRouter._mock_route`: validation of untrusted proposer output
  against the candidate set, with caps and fallbacks.
* `src/app/agents/routing_cache.py` — `RoutingCache.get` / `RoutingCache.set`
  and the version helper used for cache keys.
* `src/app/agents/domain_mapper.py` — display-name → stable-id mapping.
* `src/app/agents/contracts.py` — the result dataclasses.

Python dicts are modelled as association lists with insert-or-replace update
(`dictSet`) and first-match lookup (`dictGet`); since keys are unique by
construction this coincides with Python dict semantics, including insertion
order.  Python `set` iteration order is hash-dependent but fixed within a
process; the embedding fixes one canonical deduplicated order (`List.dedup`).
All proved properties are order-insensitive, and determinism holds for any
fixed order.  Machine floats (`time.time()`) are modelled as integers; only
ordering and subtraction of timestamps are observable.  The LLM provider is
external and untrusted: its interaction is modelled by `ProposerOutcome`,
either a structured response, a JSON-parse failure (`ValueError` in the
source) or any other exception.
-/

/-- Lookup in an association list modelling a Python dict
(first match; keys are unique by construction). -/
def dictGet {β : Type} : List (String × β) → String → Option β
  | [], _ => none
  | (k2, v) :: rest, k => if k2 = k then some v else dictGet rest k

/-- Insert-or-replace update of an association list, modelling
Python dict assignment (replaces in place, else appends). -/
def dictSet {β : Type} : List (String × β) → String → β → List (String × β)
  | [], k, v => [(k, v)]
  | (k2, v2) :: rest, k, v =>
    if k2 = k then (k2, v) :: rest else (k2, v2) :: dictSet rest k v

/-- Deletion from an association list, modelling Python `del d[k]`. -/
def dictDel {β : Type} : List (String × β) → String → List (String × β)
  | [], _ => []
  | (k2, v2) :: rest, k => if k2 = k then rest else (k2, v2) :: dictDel rest k

/-- Python `s or default` on an optional string: `None` and the empty
string are falsy. -/
def pyOrStr : Option String → String → String
  | none, d => d
  | some s, d => if s = "" then d else s

/-- Python `s.lower()`, modelled per code point (ASCII case mapping, the
range the repository's identifiers use). -/
def pyLower (s : String) : String := String.mk (s.data.map Char.toLower)

/-- Python `s[:n]` on a string: the first `n` code points. -/
def pyTake (s : String) (n : Nat) : String := String.mk (s.data.take n)

/-- Python `s.strip()`: drop leading and trailing whitespace. -/
def pyStrip (s : String) : String :=
  String.mk (((s.data.dropWhile Char.isWhitespace).reverse.dropWhile
    Char.isWhitespace).reverse)

/-- Python `s.split()` with no separator: maximal non-whitespace runs. -/
def pyWords (cs : List Char) : List (List Char) :=
  (cs.splitOnP (fun c => c.isWhitespace)).filter (fun w => !w.isEmpty)

/-- Recommendation record, from `contracts.ReadingRecommendation`. -/
structure ReadingRecommendation where
  book_id : String
  book_title : String
  book_author : String
  chapter_id : String
  chapter_number : Int
  chapter_title : String
  rationale : String
deriving Repr, DecidableEq

/-- Path record, from `contracts.ReadingPath`. -/
structure ReadingPath where
  angle : String
  recommendations : List ReadingRecommendation
deriving Repr, DecidableEq

/-- Result record, from `contracts.RoutingResult`. -/
structure RoutingResult where
  paths : List ReadingPath
  is_valid : Bool
  refusal_reason : Option String
deriving Repr, DecidableEq

/-- Total number of recommendations across all paths, from the
`RoutingResult.total_count` property in `contracts.py`. -/
def RoutingResult.total_count (r : RoutingResult) : Nat :=
  (r.paths.map (fun p => p.recommendations.length)).sum

/-- A book entry of the `book_index` artifact (`taxonomy_v2.py`):
stable id plus domain/subdomain tags. -/
structure RawBook where
  book_id : String
  title : String
  author : String
  domain_ids : List String
  subdomain_ids : List String
deriving Repr, DecidableEq

/-- A chapter entry of the `chapter_index` artifact (`taxonomy_v2.py`);
its dict keys are `chapter_id`, `book_id`, `number`, `title`
(there is no `id` key). -/
structure RawChapter where
  chapter_id : String
  book_id : String
  number : Int
  title : String
deriving Repr, DecidableEq

/-- Loaded artifacts of `TaxonomyGateV2._load_artifacts`: the
taxonomy-definition version (field `version` of `taxonomy.v1.json`) and the
raw book/chapter lists.  The lookup indexes that `_load_artifacts` builds
eagerly are recovered by the accessor functions below; the results coincide
with the Python indexes. -/
structure Artifacts where
  taxonomy_version : Int
  books : List RawBook
  chapters : List RawChapter
deriving Repr, DecidableEq

/-- The `books_by_id` index: a dict from `book_id` to the book entry
(later duplicates overwrite, as in the Python dict comprehension). -/
def Artifacts.books_by_id (a : Artifacts) : List (String × RawBook) :=
  a.books.foldl (fun m b => dictSet m b.book_id b) []

/-- The `chapters_by_book` index: chapters grouped by owning book in
artifact order; an unknown book maps to the empty list, mirroring
`chapters_by_book.get(book_id, [])`. -/
def Artifacts.chapters_by_book (a : Artifacts) (book_id : String) : List RawChapter :=
  a.chapters.filter (fun c => c.book_id = book_id)

/-- The `books_by_domain` index as a set of book ids per domain tag;
the Python `set` is modelled as a deduplicated list (membership agrees,
iteration order is fixed arbitrarily, see the file header). -/
def Artifacts.books_by_domain (a : Artifacts) (domain_id : String) : List String :=
  ((a.books.filter (fun b => b.domain_ids.contains domain_id)).map
    (fun b => b.book_id)).dedup

/-- The `books_by_subdomain` index, built like `books_by_domain`. -/
def Artifacts.books_by_subdomain (a : Artifacts) (subdomain_id : String) : List String :=
  ((a.books.filter (fun b => b.subdomain_ids.contains subdomain_id)).map
    (fun b => b.book_id)).dedup

/-- Contribution of the subdomain branch of
`TaxonomyGateV2.get_candidate_books`: books are added only when
`subdomain_id` is truthy and is a key of `books_by_subdomain`.  A key is
present exactly when its set is non-empty, so skipping and adding the
empty set coincide. -/
def Artifacts.subdomain_candidates (a : Artifacts) (subdomain_id : Option String) :
    List String :=
  match subdomain_id with
  | none => []
  | some sid => if sid = "" then [] else a.books_by_subdomain sid

/-- Embedding of `TaxonomyGateV2.get_candidate_books`: deduplicated union
of subdomain-tagged and domain-tagged books, truncated to `max_books`. -/
def Artifacts.get_candidate_books (a : Artifacts) (domain_id : String)
    (subdomain_id : Option String) (max_books : Nat) : List String :=
  ((a.subdomain_candidates subdomain_id ++ a.books_by_domain domain_id).dedup).take
    max_books

/-- Embedding of `TaxonomyGateV2.validate_book_id`: key membership in the
`books_by_id` index. -/
def Artifacts.validate_book_id (a : Artifacts) (book_id : String) : Bool :=
  (dictGet a.books_by_id book_id).isSome

/-- The gate object: `self.version` is the artifact (book/chapter index)
version; the loaded artifacts carry the taxonomy-definition version. -/
structure TaxonomyGateV2 where
  version : Int
  artifacts : Artifacts
deriving Repr, DecidableEq

/-- Method `TaxonomyGateV2.get_candidate_books`. -/
def TaxonomyGateV2.get_candidate_books (g : TaxonomyGateV2) (domain_id : String)
    (subdomain_id : Option String) (max_books : Nat) : List String :=
  g.artifacts.get_candidate_books domain_id subdomain_id max_books

/-- Method `TaxonomyGateV2.get_candidate_chapters`: a dict mapping each
requested book id to its first `max_chapters_per_book` chapters
(`chapters_by_book.get(book_id, [])[:max]`). -/
def TaxonomyGateV2.get_candidate_chapters (g : TaxonomyGateV2)
    (book_ids : List String) (max_chapters_per_book : Nat) :
    List (String × List RawChapter) :=
  book_ids.foldl
    (fun r book_id =>
      dictSet r book_id ((g.artifacts.chapters_by_book book_id).take
        max_chapters_per_book))
    []

/-- Method `TaxonomyGateV2.validate_book_id`. -/
def TaxonomyGateV2.validate_book_id (g : TaxonomyGateV2) (book_id : String) : Bool :=
  g.artifacts.validate_book_id book_id

/-- Method `TaxonomyGateV2.get_taxonomy_version`: the taxonomy-definition
version from `taxonomy.v1.json`. -/
def TaxonomyGateV2.get_taxonomy_version (g : TaxonomyGateV2) : Int :=
  g.artifacts.taxonomy_version

/-- Method `TaxonomyGateV2.get_artifact_version`: the book/chapter index
version. -/
def TaxonomyGateV2.get_artifact_version (g : TaxonomyGateV2) : Int :=
  g.version

/-- Embedding of the module-level `get_taxonomy_version` in
`routing_cache.py`.  Despite its name it returns the ARTIFACT version of the
gate, per the source comment: "Use artifact version for cache key (more
specific than taxonomy version)".  (The bare `except: return 1` guards a
failing artifact load; the embedding works on an already-loaded gate.) -/
def routing_cache_taxonomy_version (g : TaxonomyGateV2) : Int :=
  g.get_artifact_version

/-- Punctuation characters stripped by `RoutingCache._normalize_query`. -/
def strippedPunctuation : List Char := ['?', '!', '.', ',', ';', ':']

/-- Embedding of `RoutingCache._normalize_query`: lowercase, strip, remove
the punctuation characters, collapse whitespace runs to single spaces. -/
def normalize_query (query : String) : String :=
  let lowered := pyStrip (pyLower query)
  let noPunct := lowered.data.filter (fun c => !(strippedPunctuation.contains c))
  String.mk (List.intercalate [' '] (pyWords noPunct))

/-- Embedding of `RoutingCache._compute_cache_key`.  The source hashes the
component string with sha256 and keeps 16 hex characters; the embedding
keeps the component string itself.  Equal components give equal digests, and
no settled claim relies on the (probabilistic) injectivity of the hash, so
the identity model is sound. -/
def compute_cache_key (query domain : String) (subdomain : Option String)
    (taxonomy_ver : Int) : String :=
  normalize_query query ++ "::" ++ domain ++ "::" ++ pyOrStr subdomain "" ++
    "::" ++ toString taxonomy_ver

/-- Cached entry, from `routing_cache.CacheEntry`. -/
structure CacheEntry where
  routing_result : RoutingResult
  cached_at : Int
  taxonomy_version : Int
  query_hash : String
deriving Repr, DecidableEq

/-- State of `RoutingCache`: the dict of entries plus TTL and counters. -/
structure RoutingCache where
  cache : List (String × CacheEntry)
  ttl_seconds : Int
  hits : Nat
  misses : Nat
deriving Repr, DecidableEq

/-- A fresh cache, from `RoutingCache.__init__` (default TTL 3600 s). -/
def RoutingCache.init (ttl_seconds : Int) : RoutingCache :=
  { cache := [], ttl_seconds := ttl_seconds, hits := 0, misses := 0 }

/-- Embedding of `RoutingCache.get`.  `now` models `time.time()` and
`current_version` models the value of the module-level
`get_taxonomy_version()` during the call (the source reads it twice in one
call; the gate is fixed for the duration).  Returns the hit (if any) and the
updated state. -/
def RoutingCache.get (st : RoutingCache) (now current_version : Int)
    (query domain : String) (subdomain : Option String) :
    Option RoutingResult × RoutingCache :=
  let cache_key := compute_cache_key query domain subdomain current_version
  match dictGet st.cache cache_key with
  | none => (none, { st with misses := st.misses + 1 })
  | some entry =>
    if now - entry.cached_at > st.ttl_seconds then
      (none, { st with cache := dictDel st.cache cache_key,
                       misses := st.misses + 1 })
    else if entry.taxonomy_version ≠ current_version then
      (none, { st with cache := dictDel st.cache cache_key,
                       misses := st.misses + 1 })
    else
      (some entry.routing_result, { st with hits := st.hits + 1 })

/-- Embedding of `RoutingCache.set`: store the result under the computed
key with the insertion timestamp and the current version. -/
def RoutingCache.set (st : RoutingCache) (now current_version : Int)
    (query domain : String) (subdomain : Option String)
    (routing_result : RoutingResult) : RoutingCache :=
  let cache_key := compute_cache_key query domain subdomain current_version
  { st with
      cache := dictSet st.cache cache_key
        { routing_result := routing_result
          cached_at := now
          taxonomy_version := current_version
          query_hash := cache_key } }

/-- The `DOMAIN_NAME_TO_ID` table of `domain_mapper.py`. -/
def DOMAIN_NAME_TO_ID : List (String × String) :=
  [("Philosophy", "philosophy"), ("Strategy", "strategy"),
   ("Psychology", "psychology"), ("Technology", "technology"),
   ("Economics", "economics"), ("Business", "business"),
   ("History", "history"), ("Literature", "literature"),
   ("Science", "science"), ("Security", "security"),
   ("Self-Improvement", "psychology")]

/-- The `SUBDOMAIN_NAME_TO_ID` table of `domain_mapper.py`. -/
def SUBDOMAIN_NAME_TO_ID : List (String × String) :=
  [("Stoicism", "stoicism"), ("Ethics", "ethics"),
   ("Epistemology", "ethics"), ("Metaphysics", "ethics"),
   ("Political Philosophy", "power"), ("Existentialism", "existentialism"),
   ("Military Strategy", "military"), ("Game Theory", "negotiation"),
   ("Negotiation", "negotiation"), ("Decision Making", "negotiation"),
   ("Software Engineering", "software"), ("Systems Design", "systems"),
   ("Security", "security"), ("Databases", "software"),
   ("Cognitive Science", "cognitive"), ("Behavioral Economics", "behavioral"),
   ("Social Psychology", "social"), ("Mindfulness", "mindfulness"),
   ("Microeconomics", "micro"), ("Macroeconomics", "macro"),
   ("Political Economy", "macro"), ("Management", "management"),
   ("Leadership", "management"), ("Entrepreneurship", "entrepreneurship"),
   ("Productivity", "management"), ("Habits", "mindfulness")]

/-- Embedding of `domain_mapper.domain_name_to_id`: table lookup with
lowercasing fallback. -/
def domain_name_to_id (domain_name : String) : String :=
  (dictGet DOMAIN_NAME_TO_ID domain_name).getD (pyLower domain_name)

/-- Embedding of `domain_mapper.subdomain_name_to_id`: `None` and the empty
string map to `None`, otherwise table lookup with lowercasing fallback. -/
def subdomain_name_to_id : Option String → Option String
  | none => none
  | some s =>
    if s = "" then none
    else some ((dictGet SUBDOMAIN_NAME_TO_ID s).getD (pyLower s))

/-- Embedding of `domain_mapper.map_to_ids`. -/
def map_to_ids (domain_name : String) (subdomain_name : Option String) :
    String × Option String :=
  (domain_name_to_id domain_name, subdomain_name_to_id subdomain_name)

/-- A caller-supplied book dict with keys `id`, `title`, `author`
(`available_books` entries in `ReadingRouter.route`). -/
structure Book where
  id : String
  title : String
  author : String
deriving Repr, DecidableEq

/-- A chapter dict as the router reads it: it accesses only the keys `id`,
`number` and `title`, each possibly absent (`.get` with defaults).  Gate
chapters carry `number` and `title` but no `id` key. -/
structure ChapterDict where
  id? : Option String
  number? : Option Int
  title? : Option String
deriving Repr, DecidableEq

/-- Conversion applied when gate chapters are merged into
`chapters_by_book`: the artifact dict has keys `chapter_id`, `number`,
`title`, so the router's `chapter.get("id", ...)` misses. -/
def chapterDictOfRaw (c : RawChapter) : ChapterDict :=
  { id? := none, number? := some c.number, title? := some c.title }

/-- One proposed recommendation in the proposer's JSON (untrusted, all keys
possibly absent). -/
structure ProposedRec where
  book_id? : Option String
  chapter_number? : Option Int
  rationale? : Option String
deriving Repr, DecidableEq

/-- One proposed path in the proposer's JSON. -/
structure ProposedPath where
  angle? : Option String
  recommendations : List ProposedRec
deriving Repr, DecidableEq

/-- Outcome of the proposer interaction (`provider.call` inside
`_llm_route`): a structured response, a JSON-parse failure (`ValueError`),
or any other exception. -/
inductive ProposerOutcome where
  | ok (paths : List ProposedPath)
  | valueError
  | otherError
deriving Repr, DecidableEq

/-- The `books_by_id` dict built inside `_llm_route`
(`{b["id"]: b for b in candidate_books}`; later duplicates overwrite). -/
def booksById (candidate_books : List Book) : List (String × Book) :=
  candidate_books.foldl (fun m b => dictSet m b.id b) []

/-- The chapter-merge step of `_llm_route`: for each candidate book whose
entry in `chapters_by_book` is missing or empty, substitute the gate's first
8 chapters.  `chapters_by_book` is modelled as a total function defaulting
to `[]` (the router only ever reads it through `.get(book_id, [])`). -/
def mergeGateChapters (a : Artifacts) (candidate_book_ids : List String)
    (chapters_by_book : String → List ChapterDict) :
    String → List ChapterDict :=
  fun book_id =>
    if candidate_book_ids.contains book_id && (chapters_by_book book_id).isEmpty then
      ((a.chapters_by_book book_id).take 8).map chapterDictOfRaw
    else chapters_by_book book_id

/-- Construction of one `ReadingRecommendation` from a surviving proposed
recommendation (the `recommendations.append(...)` call in `_llm_route`),
with the source's `.get` defaults and the 200-character rationale cap. -/
def mkRouterRec (book_id : String) (book : Book) (chapter : ChapterDict)
    (ch_num : Int) (rec : ProposedRec) : ReadingRecommendation :=
  { book_id := book_id
    book_title := book.title
    book_author := book.author
    chapter_id := chapter.id?.getD ("ch_" ++ book_id ++ "_" ++ toString ch_num)
    chapter_number := ch_num
    chapter_title := chapter.title?.getD ("Chapter " ++ toString ch_num)
    rationale := pyTake (rec.rationale?.getD "Relevant to your question") 200 }

/-- Per-recommendation validation of `_llm_route`: reject a falsy or
non-candidate book id, re-check it against the book index, then resolve the
proposed chapter number against the book's chapter list — exact match,
else first chapter, else (no chapters) drop the recommendation. -/
def processRec (a : Artifacts) (books_by_id : List (String × Book))
    (chapters_by_book : String → List ChapterDict) (rec : ProposedRec) :
    Option ReadingRecommendation :=
  match rec.book_id? with
  | none => none
  | some book_id =>
    if book_id = "" then none
    else
      match dictGet books_by_id book_id with
      | none => none
      | some book =>
        if !(a.validate_book_id book_id) then none
        else
          let chapters := chapters_by_book book_id
          let ch_num := rec.chapter_number?.getD 1
          match chapters.find? (fun c => c.number? == some ch_num) with
          | some chapter => some (mkRouterRec book_id book chapter ch_num rec)
          | none =>
            match chapters with
            | [] => none
            | chapter :: _ =>
              some (mkRouterRec book_id book chapter (chapter.number?.getD 1) rec)

/-- The inner recommendation loop of `_llm_route` for one path: checks the
global cap (`total_recs >= 6` breaks before each item), keeps survivors in
order, and threads the updated total. -/
def buildRecs (a : Artifacts) (books_by_id : List (String × Book))
    (chapters_by_book : String → List ChapterDict) :
    List ProposedRec → Nat → List ReadingRecommendation × Nat
  | [], total_recs => ([], total_recs)
  | rec :: rest, total_recs =>
    if total_recs ≥ 6 then ([], total_recs)
    else
      match processRec a books_by_id chapters_by_book rec with
      | none => buildRecs a books_by_id chapters_by_book rest total_recs
      | some r =>
        let built := buildRecs a books_by_id chapters_by_book rest (total_recs + 1)
        (r :: built.1, built.2)

/-- The outer path loop of `_llm_route`: stops examining paths once four
have been kept, keeps a path only if it retained a recommendation, caps the
angle at 100 characters. -/
def buildPaths (a : Artifacts) (books_by_id : List (String × Book))
    (chapters_by_book : String → List ChapterDict) :
    List ProposedPath → Nat → Nat → List ReadingPath
  | [], _, _ => []
  | pd :: rest, path_count, total_recs =>
    if path_count ≥ 4 then []
    else
      let built := buildRecs a books_by_id chapters_by_book pd.recommendations
        total_recs
      if built.1.isEmpty then
        buildPaths a books_by_id chapters_by_book rest path_count built.2
      else
        { angle := pyTake (pd.angle?.getD "Reading path") 100
          recommendations := built.1 } ::
          buildPaths a books_by_id chapters_by_book rest (path_count + 1) built.2

/-- Embedding of `ReadingRouter._mock_route`: no books gives an EMPTY but
`is_valid=True` result; otherwise one path for the first available book and,
when present, one for the second, each with a single recommendation; a book
without known chapters gets the fabricated placeholder chapter
`ch_mock_1` / `ch_mock_2`. -/
def mock_route (available_books : List Book)
    (chapters_by_book : String → List ChapterDict) : RoutingResult :=
  match available_books with
  | [] =>
    { paths := []
      is_valid := true
      refusal_reason := some "No books available in this domain." }
  | book1 :: rest =>
    let chapter1 := (chapters_by_book book1.id).headD
      { id? := some "ch_mock_1", number? := some 1, title? := some "Chapter 1" }
    let path1 : ReadingPath :=
      { angle := "Foundational understanding"
        recommendations := [
          { book_id := book1.id
            book_title := book1.title
            book_author := book1.author
            chapter_id := chapter1.id?.getD "ch_mock_1"
            chapter_number := chapter1.number?.getD 1
            chapter_title := chapter1.title?.getD "Chapter 1"
            rationale := "This text addresses the core concepts related to your question." }] }
    match rest with
    | [] => { paths := [path1], is_valid := true, refusal_reason := none }
    | book2 :: _ =>
      let chapter2 := (chapters_by_book book2.id).headD
        { id? := some "ch_mock_2", number? := some 1, title? := some "Chapter 1" }
      let path2 : ReadingPath :=
        { angle := "Alternative perspective"
          recommendations := [
            { book_id := book2.id
              book_title := book2.title
              book_author := book2.author
              chapter_id := chapter2.id?.getD "ch_mock_2"
              chapter_number := chapter2.number?.getD 1
              chapter_title := chapter2.title?.getD "Chapter 1"
              rationale := "A different approach to the same question." }] }
      { paths := [path1, path2], is_valid := true, refusal_reason := none }

/-- Embedding of `ReadingRouter._llm_route` (V2 taxonomy path, the one
taken since `taxonomy_v2` imports successfully).  The gate queries, the
chapter merge, the two refusal guards, and the proposer-outcome handling
follow the source; prompt construction has no effect on the result and is
omitted.  The `except ValueError` branch yields the refusal result, the
broad `except Exception` branch falls back to `_mock_route` with the full
`available_books` list and the (mutated) merged chapter dict. -/
def llm_route (g : TaxonomyGateV2) (question domain : String)
    (subdomain : Option String) (available_books : List Book)
    (chapters_by_book : String → List ChapterDict)
    (proposer : ProposerOutcome) : RoutingResult :=
  let ids := map_to_ids domain subdomain
  let candidate_book_ids := g.get_candidate_books ids.1 ids.2 12
  let cbb := mergeGateChapters g.artifacts candidate_book_ids chapters_by_book
  if candidate_book_ids.isEmpty then
    { paths := []
      is_valid := false
      refusal_reason := some ("No books mapped to " ++ domain ++ "/" ++
        pyOrStr subdomain "general" ++ " in taxonomy") }
  else
    let candidate_books := available_books.filter
      (fun b => candidate_book_ids.contains b.id)
    if candidate_books.isEmpty then
      { paths := []
        is_valid := false
        refusal_reason := some "No candidate books available" }
    else
      match proposer with
      | .valueError =>
        { paths := []
          is_valid := false
          refusal_reason := some "Error processing routing request" }
      | .otherError => mock_route available_books cbb
      | .ok proposed_paths =>
        let paths := buildPaths g.artifacts (booksById candidate_books) cbb
          proposed_paths 0 0
        if paths.isEmpty then
          { paths := []
            is_valid := false
            refusal_reason := some "Could not identify relevant reading for this question" }
        else
          { paths := paths, is_valid := true, refusal_reason := none }

/-! ### Helper lemmas about the dict model -/

/-- Looking up after an insert-or-replace update. -/
theorem dictGet_dictSet {β : Type} (m : List (String × β)) (k k2 : String) (v : β) :
    dictGet (dictSet m k v) k2 = if k = k2 then some v else dictGet m k2 := by
  induction m with
  | nil =>
    by_cases h : k = k2 <;> simp [dictGet, dictSet, h]
  | cons hd tl ih =>
    obtain ⟨ka, va⟩ := hd
    by_cases h1 : ka = k
    · subst h1
      by_cases h2 : ka = k2 <;> simp [dictGet, dictSet, h2]
    · by_cases h2 : ka = k2
      · subst h2
        have h3 : ¬ k = ka := fun h => h1 h.symm
        simp [dictGet, dictSet, h1, h3]
      · simp [dictGet, dictSet, h1, h2, ih]

/-- Folding `dictSet` over a key list with a key-determined value behaves
as a pointwise map. -/
theorem dictGet_foldl_keys {γ : Type} (f : String → γ) :
    ∀ (ks : List String) (m0 : List (String × γ)) (k : String),
      dictGet (ks.foldl (fun m k2 => dictSet m k2 (f k2)) m0) k =
        if k ∈ ks then some (f k) else dictGet m0 k := by
  intro ks
  induction ks with
  | nil => simp
  | cons hd tl ih =>
    intro m0 k
    simp only [List.foldl_cons]
    rw [ih]
    by_cases h1 : k ∈ tl
    · simp [h1]
    · by_cases h2 : k = hd
      · subst h2
        simp [h1, dictGet_dictSet]
      · have h3 : ¬ k ∈ hd :: tl := by
          simp [List.mem_cons, h1, h2]
        have h4 : ¬ hd = k := fun h => h2 h.symm
        simp [h1, h3, dictGet_dictSet, h4]

/-- Key presence after folding `dictSet` over arbitrary elements. -/
theorem dictGet_isSome_foldl {β γ : Type} (key : β → String) (val : β → γ) :
    ∀ (bs : List β) (m0 : List (String × γ)) (k : String),
      (dictGet (bs.foldl (fun m b => dictSet m (key b) (val b)) m0) k).isSome =
        (bs.any (fun b => key b = k) || (dictGet m0 k).isSome) := by
  intro bs
  induction bs with
  | nil => simp
  | cons hd tl ih =>
    intro m0 k
    simp only [List.foldl_cons, List.any_cons]
    rw [ih, dictGet_dictSet]
    by_cases h : key hd = k <;> simp [h]

/-- Every pair in an updated dict is an old pair or carries the new value. -/
theorem mem_dictSet {β : Type} :
    ∀ (m : List (String × β)) (k : String) (v : β) (kv : String × β),
      kv ∈ dictSet m k v → kv ∈ m ∨ kv.2 = v := by
  intro m
  induction m with
  | nil =>
    intro k v kv h
    simp [dictSet] at h
    simp [h]
  | cons hd tl ih =>
    intro k v kv h
    obtain ⟨ka, va⟩ := hd
    by_cases h1 : ka = k
    · simp [dictSet, h1] at h
      rcases h with h | h
      · simp [h]
      · exact Or.inl (by simp [h])
    · simp [dictSet, h1] at h
      rcases h with h | h
      · exact Or.inl (by simp [h])
      · rcases ih k v kv h with h2 | h2
        · exact Or.inl (by simp [h2])
        · exact Or.inr h2

/-- Values in a fold of key-determined `dictSet` updates satisfy any
property holding of all produced values and of the initial values. -/
theorem mem_foldl_dictSet_val {γ : Type} (f : String → γ) (P : γ → Prop)
    (hf : ∀ k, P (f k)) :
    ∀ (ks : List String) (m0 : List (String × γ)),
      (∀ kv ∈ m0, P kv.2) →
      ∀ kv ∈ ks.foldl (fun m k2 => dictSet m k2 (f k2)) m0, P kv.2 := by
  intro ks
  induction ks with
  | nil =>
    intro m0 h0 kv hkv
    exact h0 kv hkv
  | cons hd tl ih =>
    intro m0 h0 kv hkv
    refine ih (dictSet m0 hd (f hd)) ?_ kv hkv
    intro kv2 hkv2
    rcases mem_dictSet m0 hd (f hd) kv2 hkv2 with h | h
    · exact h0 kv2 h
    · rw [h]; exact hf hd

/-- Keys after an insert-or-replace update. -/
theorem keys_dictSet {β : Type} :
    ∀ (m : List (String × β)) (k : String) (v : β),
      (dictSet m k v).map Prod.fst =
        if k ∈ m.map Prod.fst then m.map Prod.fst else m.map Prod.fst ++ [k] := by
  intro m
  induction m with
  | nil => simp [dictSet]
  | cons hd tl ih =>
    intro k v
    obtain ⟨ka, va⟩ := hd
    by_cases h1 : ka = k
    · subst h1
      simp [dictSet]
    · have h2 : ¬ k = ka := fun h => h1 h.symm
      simp only [dictSet, if_neg h1, List.map_cons, List.mem_cons, h2,
        false_or, ih k v]
      by_cases h3 : k ∈ tl.map Prod.fst <;> simp [h3]

/-- Insert-or-replace keeps the keys duplicate-free. -/
theorem nodup_keys_dictSet {β : Type} (m : List (String × β)) (k : String) (v : β)
    (h : (m.map Prod.fst).Nodup) : ((dictSet m k v).map Prod.fst).Nodup := by
  rw [keys_dictSet]
  by_cases h1 : k ∈ m.map Prod.fst
  · simpa [h1]
  · simpa [h1, List.nodup_append] using h

/-- Folded insert-or-replace updates keep the keys duplicate-free. -/
theorem nodup_keys_foldl {γ : Type} (f : String → γ) :
    ∀ (ks : List String) (m0 : List (String × γ)),
      (m0.map Prod.fst).Nodup →
      ((ks.foldl (fun m k2 => dictSet m k2 (f k2)) m0).map Prod.fst).Nodup := by
  intro ks
  induction ks with
  | nil => intro m0 h; simpa using h
  | cons hd tl ih =>
    intro m0 h
    exact ih (dictSet m0 hd (f hd)) (nodup_keys_dictSet m0 hd (f hd) h)

/-! ### Helper lemmas about the validator loops -/

/-- The running total returned by the recommendation loop is the input
total plus the number of kept recommendations. -/
theorem buildRecs_total (a : Artifacts) (bid : List (String × Book))
    (cbb : String → List ChapterDict) :
    ∀ (recs : List ProposedRec) (t : Nat),
      (buildRecs a bid cbb recs t).2 = t + (buildRecs a bid cbb recs t).1.length := by
  intro recs
  induction recs with
  | nil => intro t; simp [buildRecs]
  | cons rec rest ih =>
    intro t
    by_cases h : t ≥ 6
    · simp [buildRecs, h]
    · cases hp : processRec a bid cbb rec with
      | none => simpa [buildRecs, h, hp] using ih t
      | some r =>
        have := ih (t + 1)
        simp only [buildRecs, if_neg h, hp]
        simp [this]
        omega

/-- The recommendation loop never pushes the running total past six. -/
theorem buildRecs_le (a : Artifacts) (bid : List (String × Book))
    (cbb : String → List ChapterDict) :
    ∀ (recs : List ProposedRec) (t : Nat), t ≤ 6 →
      (buildRecs a bid cbb recs t).2 ≤ 6 := by
  intro recs
  induction recs with
  | nil => intro t ht; simpa [buildRecs] using ht
  | cons rec rest ih =>
    intro t ht
    by_cases h : t ≥ 6
    · simpa [buildRecs, h] using ht
    · cases hp : processRec a bid cbb rec with
      | none => simpa [buildRecs, h, hp] using ih t ht
      | some r =>
        have := ih (t + 1) (by omega)
        simpa [buildRecs, h, hp] using this

/-- Every kept recommendation originates from `processRec` on one of the
proposed recommendations. -/
theorem buildRecs_mem (a : Artifacts) (bid : List (String × Book))
    (cbb : String → List ChapterDict) :
    ∀ (recs : List ProposedRec) (t : Nat) (r : ReadingRecommendation),
      r ∈ (buildRecs a bid cbb recs t).1 →
      ∃ pr, pr ∈ recs ∧ processRec a bid cbb pr = some r := by
  intro recs
  induction recs with
  | nil => intro t r h; simp [buildRecs] at h
  | cons rec rest ih =>
    intro t r h
    by_cases h6 : t ≥ 6
    · simp [buildRecs, h6] at h
    · cases hp : processRec a bid cbb rec with
      | none =>
        simp only [buildRecs, if_neg h6, hp] at h
        obtain ⟨pr, hpr, he⟩ := ih t r h
        exact ⟨pr, List.mem_cons_of_mem _ hpr, he⟩
      | some r2 =>
        simp only [buildRecs, if_neg h6, hp, List.mem_cons] at h
        rcases h with h | h
        · exact ⟨rec, List.mem_cons_self _ _, by rw [hp, h]⟩
        · obtain ⟨pr, hpr, he⟩ := ih (t + 1) r h
          exact ⟨pr, List.mem_cons_of_mem _ hpr, he⟩

/-- Unfolding of the path loop once the path cap is reached. -/
theorem buildPaths_cons_capped (a : Artifacts) (bid : List (String × Book))
    (cbb : String → List ChapterDict) (pd : ProposedPath)
    (rest : List ProposedPath) (pc t : Nat) (h : pc ≥ 4) :
    buildPaths a bid cbb (pd :: rest) pc t = [] := by
  simp [buildPaths, h]

/-- Unfolding of the path loop when the current path kept nothing. -/
theorem buildPaths_cons_dropped (a : Artifacts) (bid : List (String × Book))
    (cbb : String → List ChapterDict) (pd : ProposedPath)
    (rest : List ProposedPath) (pc t : Nat) (h : ¬ pc ≥ 4)
    (he : (buildRecs a bid cbb pd.recommendations t).1.isEmpty = true) :
    buildPaths a bid cbb (pd :: rest) pc t =
      buildPaths a bid cbb rest pc (buildRecs a bid cbb pd.recommendations t).2 := by
  simp [buildPaths, h, he]

/-- Unfolding of the path loop when the current path kept something. -/
theorem buildPaths_cons_kept (a : Artifacts) (bid : List (String × Book))
    (cbb : String → List ChapterDict) (pd : ProposedPath)
    (rest : List ProposedPath) (pc t : Nat) (h : ¬ pc ≥ 4)
    (he : ¬ (buildRecs a bid cbb pd.recommendations t).1.isEmpty = true) :
    buildPaths a bid cbb (pd :: rest) pc t =
      { angle := pyTake (pd.angle?.getD "Reading path") 100
        recommendations := (buildRecs a bid cbb pd.recommendations t).1 } ::
        buildPaths a bid cbb rest (pc + 1)
          (buildRecs a bid cbb pd.recommendations t).2 := by
  simp [buildPaths, h, he]

/-- The path loop keeps at most `4 - path_count` further paths. -/
theorem buildPaths_len (a : Artifacts) (bid : List (String × Book))
    (cbb : String → List ChapterDict) :
    ∀ (pds : List ProposedPath) (pc t : Nat), pc ≤ 4 →
      pc + (buildPaths a bid cbb pds pc t).length ≤ 4 := by
  intro pds
  induction pds with
  | nil => intro pc t h; simpa [buildPaths] using h
  | cons pd rest ih =>
    intro pc t h
    by_cases h4 : pc ≥ 4
    · simpa [buildPaths_cons_capped a bid cbb pd rest pc t h4] using h
    · by_cases he : (buildRecs a bid cbb pd.recommendations t).1.isEmpty
      · rw [buildPaths_cons_dropped a bid cbb pd rest pc t h4 he]
        exact ih pc _ h
      · rw [buildPaths_cons_kept a bid cbb pd rest pc t h4 he]
        have := ih (pc + 1) (buildRecs a bid cbb pd.recommendations t).2 (by omega)
        simp only [List.length_cons]
        omega

/-- The path loop keeps at most `6 - total_recs` further recommendations
in total. -/
theorem buildPaths_sum (a : Artifacts) (bid : List (String × Book))
    (cbb : String → List ChapterDict) :
    ∀ (pds : List ProposedPath) (pc t : Nat), t ≤ 6 →
      t + ((buildPaths a bid cbb pds pc t).map
        (fun p => p.recommendations.length)).sum ≤ 6 := by
  intro pds
  induction pds with
  | nil => intro pc t h; simpa [buildPaths] using h
  | cons pd rest ih =>
    intro pc t h
    by_cases h4 : pc ≥ 4
    · simpa [buildPaths_cons_capped a bid cbb pd rest pc t h4] using h
    · have htot := buildRecs_total a bid cbb pd.recommendations t
      have hle := buildRecs_le a bid cbb pd.recommendations t h
      by_cases he : (buildRecs a bid cbb pd.recommendations t).1.isEmpty
      · have hlen : (buildRecs a bid cbb pd.recommendations t).1.length = 0 := by
          simpa [List.isEmpty_iff, List.length_eq_zero] using he
        rw [buildPaths_cons_dropped a bid cbb pd rest pc t h4 he]
        have := ih pc (buildRecs a bid cbb pd.recommendations t).2 hle
        omega
      · rw [buildPaths_cons_kept a bid cbb pd rest pc t h4 he]
        have := ih (pc + 1) (buildRecs a bid cbb pd.recommendations t).2 hle
        simp only [List.map_cons, List.sum_cons]
        omega

/-- Every kept path is non-empty and carries at most six
recommendations. -/
theorem buildPaths_path_bounds (a : Artifacts) (bid : List (String × Book))
    (cbb : String → List ChapterDict) :
    ∀ (pds : List ProposedPath) (pc t : Nat), t ≤ 6 →
      ∀ p ∈ buildPaths a bid cbb pds pc t,
        1 ≤ p.recommendations.length ∧ p.recommendations.length ≤ 6 := by
  intro pds
  induction pds with
  | nil => intro pc t ht p hp; simp [buildPaths] at hp
  | cons pd rest ih =>
    intro pc t ht p hp
    by_cases h4 : pc ≥ 4
    · rw [buildPaths_cons_capped a bid cbb pd rest pc t h4] at hp
      simp at hp
    · have htot := buildRecs_total a bid cbb pd.recommendations t
      have hle := buildRecs_le a bid cbb pd.recommendations t ht
      by_cases he : (buildRecs a bid cbb pd.recommendations t).1.isEmpty
      · rw [buildPaths_cons_dropped a bid cbb pd rest pc t h4 he] at hp
        exact ih pc _ hle p hp
      · rw [buildPaths_cons_kept a bid cbb pd rest pc t h4 he] at hp
        rcases List.mem_cons.mp hp with hp | hp
        · subst hp
          constructor
          · have hne : (buildRecs a bid cbb pd.recommendations t).1 ≠ [] := by
              simpa [List.isEmpty_iff] using he
            simpa using List.length_pos.mpr hne
          · simp only []
            omega
        · exact ih (pc + 1) _ hle p hp

/-- Every recommendation in a kept path originates from `processRec`. -/
theorem buildPaths_mem_rec (a : Artifacts) (bid : List (String × Book))
    (cbb : String → List ChapterDict) :
    ∀ (pds : List ProposedPath) (pc t : Nat),
      ∀ p ∈ buildPaths a bid cbb pds pc t,
      ∀ r ∈ p.recommendations,
        ∃ pr, processRec a bid cbb pr = some r := by
  intro pds
  induction pds with
  | nil => intro pc t p hp; simp [buildPaths] at hp
  | cons pd rest ih =>
    intro pc t p hp r hr
    by_cases h4 : pc ≥ 4
    · rw [buildPaths_cons_capped a bid cbb pd rest pc t h4] at hp
      simp at hp
    · by_cases he : (buildRecs a bid cbb pd.recommendations t).1.isEmpty
      · rw [buildPaths_cons_dropped a bid cbb pd rest pc t h4 he] at hp
        exact ih pc _ p hp r hr
      · rw [buildPaths_cons_kept a bid cbb pd rest pc t h4 he] at hp
        rcases List.mem_cons.mp hp with hp | hp
        · subst hp
          obtain ⟨pr, _, hpr⟩ := buildRecs_mem a bid cbb pd.recommendations t r hr
          exact ⟨pr, hpr⟩
        · exact ih (pc + 1) _ p hp r hr

/-- What holds of every recommendation that survives `processRec`: the
proposer named that book, the book is in the candidate dict, it passes the
index validation, and the chapter number is the number (defaulting to 1) of
a chapter actually present in the merged chapter list for that book. -/
theorem processRec_spec (a : Artifacts) (bid : List (String × Book))
    (cbb : String → List ChapterDict) (pr : ProposedRec)
    (r : ReadingRecommendation) (h : processRec a bid cbb pr = some r) :
    pr.book_id? = some r.book_id ∧
    (dictGet bid r.book_id).isSome = true ∧
    a.validate_book_id r.book_id = true ∧
    ∃ c ∈ cbb r.book_id, r.chapter_number = c.number?.getD 1 := by
  cases hb : pr.book_id? with
  | none => simp [processRec, hb] at h
  | some book_id =>
    by_cases hbe : book_id = ""
    · simp [processRec, hb, hbe] at h
    · cases hd : dictGet bid book_id with
      | none => simp [processRec, hb, hbe, hd] at h
      | some book =>
        by_cases hv : a.validate_book_id book_id
        · cases hf : (cbb book_id).find?
            (fun c => c.number? == some (pr.chapter_number?.getD 1)) with
          | some chapter =>
            have hr : r = mkRouterRec book_id book chapter
                (pr.chapter_number?.getD 1) pr := by
              simp [processRec, hb, hbe, hd, hv, hf] at h
              exact h.symm
            have hmem := List.mem_of_find?_eq_some hf
            have hnum : chapter.number? = some (pr.chapter_number?.getD 1) := by
              have := List.find?_some hf
              simpa using this
            subst hr
            refine ⟨by simpa [mkRouterRec] using hb, ?_, ?_,
              chapter, hmem, ?_⟩
            · simp [mkRouterRec, hd]
            · simpa [mkRouterRec] using hv
            · simp [mkRouterRec, hnum]
          | none =>
            cases hc : cbb book_id with
            | nil => simp [processRec, hb, hbe, hd, hv, hf, hc] at h
            | cons c0 cs =>
              rw [hc] at hf
              have hr : r = mkRouterRec book_id book c0 (c0.number?.getD 1) pr := by
                simp [processRec, hb, hbe, hd, hv, hc, hf] at h
                exact h.symm
              subst hr
              refine ⟨by simpa [mkRouterRec] using hb, ?_, ?_,
                c0, by show c0 ∈ cbb book_id; rw [hc]; exact List.mem_cons_self c0 cs,
                rfl⟩
              · simp [mkRouterRec, hd]
              · simpa [mkRouterRec] using hv
        · simp [processRec, hb, hbe, hd, hv] at h

/-- Key presence in the `books_by_id` dict of `_llm_route` is existence of
a candidate book with that id. -/
theorem booksById_isSome (bs : List Book) (k : String) :
    (dictGet (booksById bs) k).isSome = bs.any (fun b => b.id = k) := by
  have := dictGet_isSome_foldl (fun b : Book => b.id) (fun b => b) bs [] k
  simpa [booksById, dictGet] using this

/-- Shape facts about `_mock_route`: always `is_valid=True`; at most two
paths, each carrying exactly one recommendation; no paths exactly when no
books were supplied. -/
theorem mock_route_spec (bs : List Book) (cbb : String → List ChapterDict) :
    (mock_route bs cbb).is_valid = true ∧
    (mock_route bs cbb).paths.length ≤ 2 ∧
    (mock_route bs cbb).total_count ≤ 2 ∧
    (∀ p ∈ (mock_route bs cbb).paths, p.recommendations.length = 1) ∧
    ((mock_route bs cbb).paths = [] ↔ bs = []) := by
  match bs with
  | [] => simp [mock_route, RoutingResult.total_count]
  | [b1] =>
    refine ⟨rfl, by simp [mock_route], by simp [mock_route, RoutingResult.total_count],
      ?_, by simp [mock_route]⟩
    intro p hp
    simp [mock_route] at hp
    simp [hp]
  | b1 :: b2 :: rest =>
    refine ⟨rfl, by simp [mock_route], by simp [mock_route, RoutingResult.total_count],
      ?_, by simp [mock_route]⟩
    intro p hp
    simp [mock_route] at hp
    rcases hp with hp | hp <;> simp [hp]

/-- Branch equation of `_llm_route`: empty candidate set from the gate. -/
theorem llm_route_unmapped (g : TaxonomyGateV2) (q domain : String)
    (sd : Option String) (books : List Book)
    (cbb : String → List ChapterDict) (prop : ProposerOutcome)
    (h : g.get_candidate_books (map_to_ids domain sd).1
      (map_to_ids domain sd).2 12 = []) :
    llm_route g q domain sd books cbb prop =
      { paths := []
        is_valid := false
        refusal_reason := some ("No books mapped to " ++ domain ++ "/" ++
          pyOrStr sd "general" ++ " in taxonomy") } := by
  simp [llm_route, h]

/-- Branch equation of `_llm_route`: candidates exist but none is among
the available books. -/
theorem llm_route_no_candidates (g : TaxonomyGateV2) (q domain : String)
    (sd : Option String) (books : List Book)
    (cbb : String → List ChapterDict) (prop : ProposerOutcome)
    (h1 : ¬ g.get_candidate_books (map_to_ids domain sd).1
      (map_to_ids domain sd).2 12 = [])
    (h2 : books.filter (fun b => (g.get_candidate_books (map_to_ids domain sd).1
      (map_to_ids domain sd).2 12).contains b.id) = []) :
    llm_route g q domain sd books cbb prop =
      { paths := []
        is_valid := false
        refusal_reason := some "No candidate books available" } := by
  have c1 : ¬ ((g.get_candidate_books (map_to_ids domain sd).1
      (map_to_ids domain sd).2 12).isEmpty = true) := by
    simp only [List.isEmpty_iff]; exact h1
  have c2 : (books.filter (fun b => (g.get_candidate_books (map_to_ids domain sd).1
      (map_to_ids domain sd).2 12).contains b.id)).isEmpty = true := by
    simp only [List.isEmpty_iff]; exact h2
  simp only [llm_route, if_neg c1, if_pos c2]

/-- Branch equation of `_llm_route`: JSON-parsing failure
(`except ValueError`). -/
theorem llm_route_value_error (g : TaxonomyGateV2) (q domain : String)
    (sd : Option String) (books : List Book)
    (cbb : String → List ChapterDict)
    (h1 : ¬ g.get_candidate_books (map_to_ids domain sd).1
      (map_to_ids domain sd).2 12 = [])
    (h2 : ¬ books.filter (fun b => (g.get_candidate_books (map_to_ids domain sd).1
      (map_to_ids domain sd).2 12).contains b.id) = []) :
    llm_route g q domain sd books cbb ProposerOutcome.valueError =
      { paths := []
        is_valid := false
        refusal_reason := some "Error processing routing request" } := by
  have c1 : ¬ ((g.get_candidate_books (map_to_ids domain sd).1
      (map_to_ids domain sd).2 12).isEmpty = true) := by
    simp only [List.isEmpty_iff]; exact h1
  have c2 : ¬ ((books.filter (fun b => (g.get_candidate_books (map_to_ids domain sd).1
      (map_to_ids domain sd).2 12).contains b.id)).isEmpty = true) := by
    simp only [List.isEmpty_iff]; exact h2
  simp only [llm_route, if_neg c1, if_neg c2]

/-- Branch equation of `_llm_route`: any other exception
(`except Exception`) falls back to `_mock_route` on the full available-book
list with the merged chapter dict. -/
theorem llm_route_other_error (g : TaxonomyGateV2) (q domain : String)
    (sd : Option String) (books : List Book)
    (cbb : String → List ChapterDict)
    (h1 : ¬ g.get_candidate_books (map_to_ids domain sd).1
      (map_to_ids domain sd).2 12 = [])
    (h2 : ¬ books.filter (fun b => (g.get_candidate_books (map_to_ids domain sd).1
      (map_to_ids domain sd).2 12).contains b.id) = []) :
    llm_route g q domain sd books cbb ProposerOutcome.otherError =
      mock_route books (mergeGateChapters g.artifacts
        (g.get_candidate_books (map_to_ids domain sd).1
          (map_to_ids domain sd).2 12) cbb) := by
  have c1 : ¬ ((g.get_candidate_books (map_to_ids domain sd).1
      (map_to_ids domain sd).2 12).isEmpty = true) := by
    simp only [List.isEmpty_iff]; exact h1
  have c2 : ¬ ((books.filter (fun b => (g.get_candidate_books (map_to_ids domain sd).1
      (map_to_ids domain sd).2 12).contains b.id)).isEmpty = true) := by
    simp only [List.isEmpty_iff]; exact h2
  simp only [llm_route, if_neg c1, if_neg c2]

/-- Branch equation of `_llm_route`: structured proposer output with no
surviving path. -/
theorem llm_route_ok_empty (g : TaxonomyGateV2) (q domain : String)
    (sd : Option String) (books : List Book)
    (cbb : String → List ChapterDict) (pds : List ProposedPath)
    (h1 : ¬ g.get_candidate_books (map_to_ids domain sd).1
      (map_to_ids domain sd).2 12 = [])
    (h2 : ¬ books.filter (fun b => (g.get_candidate_books (map_to_ids domain sd).1
      (map_to_ids domain sd).2 12).contains b.id) = [])
    (h3 : buildPaths g.artifacts
      (booksById (books.filter (fun b =>
        (g.get_candidate_books (map_to_ids domain sd).1
          (map_to_ids domain sd).2 12).contains b.id)))
      (mergeGateChapters g.artifacts
        (g.get_candidate_books (map_to_ids domain sd).1
          (map_to_ids domain sd).2 12) cbb) pds 0 0 = []) :
    llm_route g q domain sd books cbb (ProposerOutcome.ok pds) =
      { paths := []
        is_valid := false
        refusal_reason := some "Could not identify relevant reading for this question" } := by
  have c1 : ¬ ((g.get_candidate_books (map_to_ids domain sd).1
      (map_to_ids domain sd).2 12).isEmpty = true) := by
    simp only [List.isEmpty_iff]; exact h1
  have c2 : ¬ ((books.filter (fun b => (g.get_candidate_books (map_to_ids domain sd).1
      (map_to_ids domain sd).2 12).contains b.id)).isEmpty = true) := by
    simp only [List.isEmpty_iff]; exact h2
  have c3 : (buildPaths g.artifacts
      (booksById (books.filter (fun b =>
        (g.get_candidate_books (map_to_ids domain sd).1
          (map_to_ids domain sd).2 12).contains b.id)))
      (mergeGateChapters g.artifacts
        (g.get_candidate_books (map_to_ids domain sd).1
          (map_to_ids domain sd).2 12) cbb) pds 0 0).isEmpty = true := by
    simp only [List.isEmpty_iff]; exact h3
  simp only [llm_route, if_neg c1, if_neg c2, if_pos c3]

/-- Branch equation of `_llm_route`: structured proposer output with at
least one surviving path. -/
theorem llm_route_ok_paths (g : TaxonomyGateV2) (q domain : String)
    (sd : Option String) (books : List Book)
    (cbb : String → List ChapterDict) (pds : List ProposedPath)
    (h1 : ¬ g.get_candidate_books (map_to_ids domain sd).1
      (map_to_ids domain sd).2 12 = [])
    (h2 : ¬ books.filter (fun b => (g.get_candidate_books (map_to_ids domain sd).1
      (map_to_ids domain sd).2 12).contains b.id) = [])
    (h3 : ¬ buildPaths g.artifacts
      (booksById (books.filter (fun b =>
        (g.get_candidate_books (map_to_ids domain sd).1
          (map_to_ids domain sd).2 12).contains b.id)))
      (mergeGateChapters g.artifacts
        (g.get_candidate_books (map_to_ids domain sd).1
          (map_to_ids domain sd).2 12) cbb) pds 0 0 = []) :
    llm_route g q domain sd books cbb (ProposerOutcome.ok pds) =
      { paths := buildPaths g.artifacts
          (booksById (books.filter (fun b =>
            (g.get_candidate_books (map_to_ids domain sd).1
              (map_to_ids domain sd).2 12).contains b.id)))
          (mergeGateChapters g.artifacts
            (g.get_candidate_books (map_to_ids domain sd).1
              (map_to_ids domain sd).2 12) cbb) pds 0 0
        is_valid := true
        refusal_reason := none } := by
  have c1 : ¬ ((g.get_candidate_books (map_to_ids domain sd).1
      (map_to_ids domain sd).2 12).isEmpty = true) := by
    simp only [List.isEmpty_iff]; exact h1
  have c2 : ¬ ((books.filter (fun b => (g.get_candidate_books (map_to_ids domain sd).1
      (map_to_ids domain sd).2 12).contains b.id)).isEmpty = true) := by
    simp only [List.isEmpty_iff]; exact h2
  have c3 : ¬ ((buildPaths g.artifacts
      (booksById (books.filter (fun b =>
        (g.get_candidate_books (map_to_ids domain sd).1
          (map_to_ids domain sd).2 12).contains b.id)))
      (mergeGateChapters g.artifacts
        (g.get_candidate_books (map_to_ids domain sd).1
          (map_to_ids domain sd).2 12) cbb) pds 0 0).isEmpty = true) := by
    simp only [List.isEmpty_iff]; exact h3
  simp only [llm_route, if_neg c1, if_neg c2, if_neg c3]

/-- A book id tagged under a domain comes from some book of the index. -/
theorem mem_books_by_domain (a : Artifacts) (domain_id bid2 : String)
    (h : bid2 ∈ a.books_by_domain domain_id) :
    ∃ b ∈ a.books, b.book_id = bid2 := by
  simp only [Artifacts.books_by_domain, List.mem_dedup, List.mem_map,
    List.mem_filter] at h
  obtain ⟨b, ⟨hbmem, _⟩, hbid⟩ := h
  exact ⟨b, hbmem, hbid⟩

/-- A book id tagged under a subdomain comes from some book of the index. -/
theorem mem_books_by_subdomain (a : Artifacts) (subdomain_id bid2 : String)
    (h : bid2 ∈ a.books_by_subdomain subdomain_id) :
    ∃ b ∈ a.books, b.book_id = bid2 := by
  simp only [Artifacts.books_by_subdomain, List.mem_dedup, List.mem_map,
    List.mem_filter] at h
  obtain ⟨b, ⟨hbmem, _⟩, hbid⟩ := h
  exact ⟨b, hbmem, hbid⟩

/-- Any id of a book present in the index passes `validate_book_id`. -/
theorem validate_of_mem_books (a : Artifacts) (bid2 : String)
    (h : ∃ b ∈ a.books, b.book_id = bid2) :
    a.validate_book_id bid2 = true := by
  obtain ⟨b, hbmem, hbid⟩ := h
  unfold Artifacts.validate_book_id Artifacts.books_by_id
  rw [dictGet_isSome_foldl (fun b : RawBook => b.book_id) (fun b => b)]
  simp only [dictGet, Option.isSome_none, Bool.or_false, List.any_eq_true,
    decide_eq_true_eq]
  exact ⟨b, hbmem, hbid⟩

/-! ### Concrete data for witnesses and counterexamples -/

/-- A sample indexed book tagged philosophy/stoicism. -/
def sampleBook1 : RawBook :=
  { book_id := "book_meditations", title := "Meditations",
    author := "Marcus Aurelius", domain_ids := ["philosophy"],
    subdomain_ids := ["stoicism"] }

/-- A sample indexed book tagged strategy/military. -/
def sampleBook2 : RawBook :=
  { book_id := "book_artofwar", title := "The Art of War",
    author := "Sun Tzu", domain_ids := ["strategy"],
    subdomain_ids := ["military"] }

/-- Chapters of the sample catalog. -/
def sampleChapters : List RawChapter :=
  [{ chapter_id := "ch_med_1", book_id := "book_meditations", number := 1,
     title := "Book One" },
   { chapter_id := "ch_med_2", book_id := "book_meditations", number := 2,
     title := "Book Two" }]

/-- A sample loaded artifact bundle (taxonomy-definition version 1). -/
def sampleArtifacts : Artifacts :=
  { taxonomy_version := 1, books := [sampleBook1, sampleBook2],
    chapters := sampleChapters }

/-- A sample gate at artifact version 3. -/
def sampleGate : TaxonomyGateV2 :=
  { version := 3, artifacts := sampleArtifacts }

/-- The sample gate after incrementing ONLY the taxonomy-definition
version (artifacts and artifact version unchanged). -/
def sampleGateBumpedTaxonomy : TaxonomyGateV2 :=
  { version := 3,
    artifacts := { taxonomy_version := 2, books := [sampleBook1, sampleBook2],
                   chapters := sampleChapters } }

/-- The sample gate after an artifact rebuild (artifact version 4). -/
def sampleGateBumpedArtifact : TaxonomyGateV2 :=
  { version := 4, artifacts := sampleArtifacts }

/-- An available book matching the indexed sample book. -/
def sampleAvailable1 : Book :=
  { id := "book_meditations", title := "Meditations",
    author := "Marcus Aurelius" }

/-- An available book that is NOT in the candidate set or the index. -/
def sampleAvailable2 : Book :=
  { id := "book_unrelated", title := "Unrelated", author := "Nobody" }

/-- An empty caller-supplied chapter dict. -/
def emptyChapters : String → List ChapterDict := fun _ => []

/-- A sample stored routing result (content irrelevant to the cache). -/
def sampleRoutingResult : RoutingResult :=
  { paths := [{ angle := "Foundational understanding", recommendations := [] }]
    is_valid := true, refusal_reason := none }

/-- A proposed recommendation naming the sample book, chapter 1. -/
def sampleProposedRec : ProposedRec :=
  { book_id? := some "book_meditations", chapter_number? := some 1,
    rationale? := some "why" }

/-- A proposed path with one recommendation. -/
def sampleProposedPath1 : ProposedPath :=
  { angle? := some "Angle", recommendations := [sampleProposedRec] }

/-- A proposed path with THREE recommendations (over the documented
per-path cap of two). -/
def sampleProposedPath3 : ProposedPath :=
  { angle? := some "Angle",
    recommendations := [sampleProposedRec, sampleProposedRec, sampleProposedRec] }

/-! ### Claim theorems -/

/-- Shared cache fact: a `get` right after a `set` under the same key
components and version, within the TTL, returns the stored result. -/
theorem cache_hit_of_same_version (st : RoutingCache) (now1 now2 ver : Int)
    (q d : String) (sd : Option String) (r : RoutingResult)
    (h : now2 - now1 ≤ st.ttl_seconds) :
    ((st.set now1 ver q d sd r).get now2 ver q d sd).1 = some r := by
  have hts : ¬ (now2 - now1 > st.ttl_seconds) := by omega
  simp [RoutingCache.set, RoutingCache.get, dictGet_dictSet, hts]

/-- C8: reading the routing cache immediately after writing it, with the
identical (question, domain, subdomain), the same current version value and
within the TTL, returns exactly the stored routing result.  (The version
helper is read by both `set` and `get`; an unchanged taxonomy/catalog state
supplies the same `ver`.) -/
theorem C8_cache_get_after_set (st : RoutingCache) (now1 now2 ver : Int)
    (q d : String) (sd : Option String) (r : RoutingResult)
    (h : now2 - now1 ≤ st.ttl_seconds) :
    ((st.set now1 ver q d sd r).get now2 ver q d sd).1 = some r :=
  cache_hit_of_same_version st now1 now2 ver q d sd r h

/-- Witness for C8 at a concrete state: a result stored at time 0 and read
back at time 10 (TTL 3600, version 3) is returned unchanged. -/
theorem C8_cache_get_after_set_witness :
    (10 - 0 : Int) ≤ (RoutingCache.init 3600).ttl_seconds ∧
    (((RoutingCache.init 3600).set 0 3 "Why act calm?" "Philosophy" none
        sampleRoutingResult).get 10 3 "Why act calm?" "Philosophy" none).1 =
      some sampleRoutingResult :=
  ⟨by decide,
   C8_cache_get_after_set (RoutingCache.init 3600) 0 10 3 "Why act calm?"
     "Philosophy" none sampleRoutingResult (by decide)⟩

/-- C3 counterexample: incrementing ONLY the taxonomy-definition version
(artifact version unchanged) does NOT invalidate a cached routing result —
the read is still a hit, because the cache's version helper returns the
artifact version, not the taxonomy-definition version. -/
theorem C3_counterexample :
    sampleGateBumpedTaxonomy.get_taxonomy_version =
      sampleGate.get_taxonomy_version + 1 ∧
    sampleGateBumpedTaxonomy.get_artifact_version =
      sampleGate.get_artifact_version ∧
    (((RoutingCache.init 3600).set 0
        (routing_cache_taxonomy_version sampleGate) "Why act calm?"
        "Philosophy" none sampleRoutingResult).get 10
        (routing_cache_taxonomy_version sampleGateBumpedTaxonomy)
        "Why act calm?" "Philosophy" none).1 = some sampleRoutingResult := by
  refine ⟨by decide, by decide, ?_⟩
  exact cache_hit_of_same_version (RoutingCache.init 3600) 0 10
    (routing_cache_taxonomy_version sampleGate) "Why act calm?" "Philosophy"
    none sampleRoutingResult (by decide)

/-- C3 amended: only the snapshot/artifact version feeds routing-cache key
derivation and the stored-version check.  Changing the artifact version
makes the previously stored entry a guaranteed miss (even with no TTL
condition), while a taxonomy-definition change with the artifact version
unchanged leaves the entry a hit within the TTL. -/
theorem C3_amended_version_invalidation (g1 g2 : TaxonomyGateV2)
    (ttl t1 t2 : Int) (q d : String) (sd : Option String) (r : RoutingResult) :
    (g1.version ≠ g2.version →
      (((RoutingCache.init ttl).set t1 (routing_cache_taxonomy_version g1)
          q d sd r).get t2 (routing_cache_taxonomy_version g2) q d sd).1 =
        none) ∧
    (g1.version = g2.version → t2 - t1 ≤ ttl →
      (((RoutingCache.init ttl).set t1 (routing_cache_taxonomy_version g1)
          q d sd r).get t2 (routing_cache_taxonomy_version g2) q d sd).1 =
        some r) := by
  constructor
  · intro hv
    have hv2 : routing_cache_taxonomy_version g1 ≠
        routing_cache_taxonomy_version g2 := by
      simpa [routing_cache_taxonomy_version, TaxonomyGateV2.get_artifact_version]
        using hv
    by_cases hk : compute_cache_key q d sd (routing_cache_taxonomy_version g1) =
        compute_cache_key q d sd (routing_cache_taxonomy_version g2)
    · by_cases ht : t2 - t1 > ttl
      · simp [RoutingCache.set, RoutingCache.get, RoutingCache.init, dictSet,
          dictGet, hk, ht]
      · simp [RoutingCache.set, RoutingCache.get, RoutingCache.init, dictSet,
          dictGet, hk, ht, hv2]
    · simp [RoutingCache.set, RoutingCache.get, RoutingCache.init, dictSet,
        dictGet, hk]
  · intro hv ht
    have hv2 : routing_cache_taxonomy_version g1 =
        routing_cache_taxonomy_version g2 := by
      simpa [routing_cache_taxonomy_version, TaxonomyGateV2.get_artifact_version]
        using hv
    rw [hv2]
    exact cache_hit_of_same_version (RoutingCache.init ttl) t1 t2 _ q d sd r ht

/-- C6: an empty candidate set from the taxonomy gate makes the router
return `is_valid=false`, empty paths, and a non-empty refusal reason built
from the classified domain and subdomain (`'general'` when absent).  The
embedding is a total function, so no exception can escape. -/
theorem C6_unmapped_domain_refusal (g : TaxonomyGateV2) (q domain : String)
    (sd : Option String) (books : List Book)
    (cbb : String → List ChapterDict) (prop : ProposerOutcome)
    (h : g.get_candidate_books (map_to_ids domain sd).1
      (map_to_ids domain sd).2 12 = []) :
    llm_route g q domain sd books cbb prop =
      { paths := []
        is_valid := false
        refusal_reason := some ("No books mapped to " ++ domain ++ "/" ++
          pyOrStr sd "general" ++ " in taxonomy") } ∧
    0 < ("No books mapped to " ++ domain ++ "/" ++
      pyOrStr sd "general" ++ " in taxonomy").length := by
  refine ⟨llm_route_unmapped g q domain sd books cbb prop h, ?_⟩
  have h19 : 0 < ("No books mapped to ").length := by decide
  simp only [String.length_append]
  omega

/-- Witness for C6: the sample catalog maps nothing to the domain
History, and the router refuses with the expected reason. -/
theorem C6_unmapped_domain_refusal_witness :
    sampleGate.get_candidate_books (map_to_ids "History" none).1
      (map_to_ids "History" none).2 12 = [] ∧
    llm_route sampleGate "q" "History" none [sampleAvailable1] emptyChapters
      (ProposerOutcome.ok []) =
      { paths := []
        is_valid := false
        refusal_reason := some "No books mapped to History/general in taxonomy" } := by
  refine ⟨by decide, ?_⟩
  rw [(C6_unmapped_domain_refusal sampleGate "q" "History" none
    [sampleAvailable1] emptyChapters (ProposerOutcome.ok []) (by decide)).1]
  decide

/-- C7: the candidate set is the deduplicated union of subdomain-tagged
and domain-tagged books truncated to `max_books`; an absent, empty or
unknown subdomain (empty subdomain contribution) reduces to domain-only
matches; a fully unmapped pair gives the empty list (not an error — the
function is total); and the result is deterministic (the embedding is a
pure function of the loaded catalog, mirroring the fixed per-process
iteration order of the CPython set). -/
theorem C7_candidate_books_spec (g : TaxonomyGateV2) (domain_id : String)
    (subdomain_id : Option String) (n : Nat) :
    (g.get_candidate_books domain_id subdomain_id n).Nodup ∧
    (∀ x ∈ g.get_candidate_books domain_id subdomain_id n,
      x ∈ g.artifacts.subdomain_candidates subdomain_id ∨
      x ∈ g.artifacts.books_by_domain domain_id) ∧
    (g.get_candidate_books domain_id subdomain_id n).length ≤ n ∧
    (((g.artifacts.subdomain_candidates subdomain_id ++
        g.artifacts.books_by_domain domain_id).dedup).length ≤ n →
      ∀ x, (x ∈ g.artifacts.subdomain_candidates subdomain_id ∨
            x ∈ g.artifacts.books_by_domain domain_id) →
        x ∈ g.get_candidate_books domain_id subdomain_id n) ∧
    (g.artifacts.subdomain_candidates subdomain_id = [] →
      g.get_candidate_books domain_id subdomain_id n =
        g.get_candidate_books domain_id none n) ∧
    (g.artifacts.subdomain_candidates subdomain_id = [] →
      g.artifacts.books_by_domain domain_id = [] →
      g.get_candidate_books domain_id subdomain_id n = []) ∧
    g.get_candidate_books domain_id subdomain_id n =
      g.get_candidate_books domain_id subdomain_id n := by
  unfold TaxonomyGateV2.get_candidate_books Artifacts.get_candidate_books
  refine ⟨?_, ?_, ?_, ?_, ?_, ?_, rfl⟩
  · exact (List.take_sublist _ _).nodup (List.nodup_dedup _)
  · intro x hx
    have hx2 := List.take_subset _ _ hx
    simpa [List.mem_dedup, List.mem_append] using hx2
  · exact List.length_take_le _ _
  · intro hfit x hx
    rw [List.take_of_length_le hfit]
    rw [List.mem_dedup, List.mem_append]
    exact hx
  · intro hsub
    rw [hsub]
    rfl
  · intro hsub hdom
    rw [hsub, hdom]
    simp

/-- Witness for C7: an unknown subdomain falls back to domain-only
matches, and the result respects the cap, on the sample catalog. -/
theorem C7_candidate_books_spec_witness :
    sampleGate.artifacts.subdomain_candidates (some "unknownsub") = [] ∧
    sampleGate.get_candidate_books "philosophy" (some "unknownsub") 12 =
      sampleGate.get_candidate_books "philosophy" none 12 ∧
    (sampleGate.get_candidate_books "philosophy" (some "stoicism") 12).length ≤ 12 :=
  ⟨by decide,
   (C7_candidate_books_spec sampleGate "philosophy" (some "unknownsub")
     12).2.2.2.2.1 (by decide),
   (C7_candidate_books_spec sampleGate "philosophy" (some "stoicism")
     12).2.2.1⟩

/-- C9: every id the gate returns as a candidate exists in the loaded book
index (`validate_book_id` holds), and never more than `max_books` ids are
returned. -/
theorem C9_candidates_validated (g : TaxonomyGateV2) (domain_id : String)
    (subdomain_id : Option String) (n : Nat) :
    (∀ bid2 ∈ g.get_candidate_books domain_id subdomain_id n,
      g.validate_book_id bid2 = true) ∧
    (g.get_candidate_books domain_id subdomain_id n).length ≤ n := by
  constructor
  · intro bid2 hmem
    unfold TaxonomyGateV2.get_candidate_books Artifacts.get_candidate_books at hmem
    have hx := List.take_subset _ _ hmem
    rw [List.mem_dedup, List.mem_append] at hx
    have hex : ∃ b ∈ g.artifacts.books, b.book_id = bid2 := by
      rcases hx with hx | hx
      · cases subdomain_id with
        | none => simp [Artifacts.subdomain_candidates] at hx
        | some sid =>
          simp only [Artifacts.subdomain_candidates] at hx
          by_cases hse : sid = ""
          · rw [if_pos hse] at hx
            simp at hx
          · rw [if_neg hse] at hx
            exact mem_books_by_subdomain g.artifacts sid bid2 hx
      · exact mem_books_by_domain g.artifacts domain_id bid2 hx
    exact validate_of_mem_books g.artifacts bid2 hex
  · unfold TaxonomyGateV2.get_candidate_books Artifacts.get_candidate_books
    exact List.length_take_le _ _

/-- Witness for C9 on the sample catalog: the returned philosophy
candidate validates against the index, and the cap holds. -/
theorem C9_candidates_validated_witness :
    sampleGate.validate_book_id "book_meditations" = true ∧
    (sampleGate.get_candidate_books "philosophy" none 12).length ≤ 12 :=
  ⟨(C9_candidates_validated sampleGate "philosophy" none 12).1
     "book_meditations" (by decide),
   (C9_candidates_validated sampleGate "philosophy" none 12).2⟩

/-- C10: `get_candidate_chapters` is total and returns a dict with exactly
one entry per requested book id — an id with no chapters (or unknown to the
catalog) maps to the empty list rather than being omitted — and every list
is capped at `max_chapters_per_book`. -/
theorem C10_candidate_chapters_total (g : TaxonomyGateV2)
    (book_ids : List String) (maxc : Nat) :
    (∀ bid2 ∈ book_ids,
      dictGet (g.get_candidate_chapters book_ids maxc) bid2 =
        some ((g.artifacts.chapters_by_book bid2).take maxc)) ∧
    (∀ bid2, bid2 ∉ book_ids →
      dictGet (g.get_candidate_chapters book_ids maxc) bid2 = none) ∧
    (∀ kv ∈ g.get_candidate_chapters book_ids maxc, kv.2.length ≤ maxc) ∧
    ((g.get_candidate_chapters book_ids maxc).map Prod.fst).Nodup := by
  refine ⟨?_, ?_, ?_, ?_⟩
  · intro bid2 hmem
    have hkey := dictGet_foldl_keys
      (fun k => (g.artifacts.chapters_by_book k).take maxc) book_ids [] bid2
    rw [if_pos hmem] at hkey
    exact hkey
  · intro bid2 hmem
    have hkey := dictGet_foldl_keys
      (fun k => (g.artifacts.chapters_by_book k).take maxc) book_ids [] bid2
    rw [if_neg hmem] at hkey
    exact hkey
  · intro kv hkv
    refine mem_foldl_dictSet_val
      (fun k => (g.artifacts.chapters_by_book k).take maxc)
      (fun v => v.length ≤ maxc) (fun k => List.length_take_le _ _)
      book_ids [] ?_ kv hkv
    intro kv2 hkv2
    simp at hkv2
  · exact nodup_keys_foldl
      (fun k => (g.artifacts.chapters_by_book k).take maxc)
      book_ids [] (by simp)

/-- Witness for C10 on the sample catalog: a requested id unknown to the
catalog is present and maps to the (empty) truncated chapter list, and an
unrequested id is absent. -/
theorem C10_candidate_chapters_total_witness :
    dictGet (sampleGate.get_candidate_chapters
      ["book_meditations", "book_unknown"] 1) "book_unknown" =
      some ((sampleGate.artifacts.chapters_by_book "book_unknown").take 1) ∧
    dictGet (sampleGate.get_candidate_chapters
      ["book_meditations", "book_unknown"] 1) "book_zzz" = none :=
  ⟨(C10_candidate_chapters_total sampleGate
      ["book_meditations", "book_unknown"] 1).1 "book_unknown" (by decide),
   (C10_candidate_chapters_total sampleGate
      ["book_meditations", "book_unknown"] 1).2.1 "book_zzz" (by decide)⟩

/-- An available book matching the second indexed sample book (which has
no chapters in the sample catalog). -/
def sampleAvailableAoW : Book :=
  { id := "book_artofwar", title := "The Art of War", author := "Sun Tzu" }

/-- A caller-supplied chapter dict for the sample catalog. -/
def sampleCbb : String → List ChapterDict := fun b =>
  if b = "book_meditations" then
    [{ id? := some "cid1", number? := some 1, title? := some "One" },
     { id? := some "cid2", number? := some 2, title? := some "Two" }]
  else []

/-- A proposed recommendation naming a chapter number that does not exist
(chapter 99). -/
def sampleProposedRec99 : ProposedRec :=
  { book_id? := some "book_meditations", chapter_number? := some 99,
    rationale? := some "why" }

/-- A proposed recommendation for the chapterless sample book. -/
def sampleProposedRecAoW : ProposedRec :=
  { book_id? := some "book_artofwar", chapter_number? := some 99,
    rationale? := some "why" }

/-- C5: when the proposed chapter number matches no chapter of a valid
candidate book, the validator keeps the recommendation and substitutes the
FIRST chapter of the book's chapter list; when that list is empty it
discards the recommendation entirely. -/
theorem C5_chapter_resolution (a : Artifacts) (bid : List (String × Book))
    (cbb : String → List ChapterDict) (pr : ProposedRec) (book_id : String)
    (book : Book)
    (hb : pr.book_id? = some book_id) (hbe : ¬ book_id = "")
    (hd : dictGet bid book_id = some book)
    (hv : a.validate_book_id book_id = true)
    (hmiss : ∀ c ∈ cbb book_id, ¬ c.number? = some (pr.chapter_number?.getD 1)) :
    (cbb book_id = [] → processRec a bid cbb pr = none) ∧
    (∀ c0 cs, cbb book_id = c0 :: cs →
      processRec a bid cbb pr =
        some (mkRouterRec book_id book c0 (c0.number?.getD 1) pr)) := by
  have hfind : (cbb book_id).find?
      (fun c => c.number? == some (pr.chapter_number?.getD 1)) = none := by
    rw [List.find?_eq_none]
    intro c hc
    simpa using hmiss c hc
  constructor
  · intro hempty
    rw [hempty] at hfind
    simp [processRec, hb, hbe, hd, hv, hempty, hfind]
  · intro c0 cs hcons
    rw [hcons] at hfind
    simp [processRec, hb, hbe, hd, hv, hcons, hfind]

/-- Witness for C5: proposed chapter 99 for the sample book resolves to
its first chapter; the chapterless book's recommendation is discarded. -/
theorem C5_chapter_resolution_witness :
    processRec sampleArtifacts (booksById [sampleAvailable1, sampleAvailableAoW])
      sampleCbb sampleProposedRec99 =
      some (mkRouterRec "book_meditations" sampleAvailable1
        { id? := some "cid1", number? := some 1, title? := some "One" }
        (({ id? := some "cid1", number? := some 1,
            title? := some "One" } : ChapterDict).number?.getD 1)
        sampleProposedRec99) ∧
    processRec sampleArtifacts (booksById [sampleAvailable1, sampleAvailableAoW])
      sampleCbb sampleProposedRecAoW = none :=
  ⟨(C5_chapter_resolution sampleArtifacts
      (booksById [sampleAvailable1, sampleAvailableAoW]) sampleCbb
      sampleProposedRec99 "book_meditations" sampleAvailable1
      (by decide) (by decide) (by decide) (by decide) (by decide)).2
      { id? := some "cid1", number? := some 1, title? := some "One" }
      [{ id? := some "cid2", number? := some 2, title? := some "Two" }]
      (by decide),
   (C5_chapter_resolution sampleArtifacts
      (booksById [sampleAvailable1, sampleAvailableAoW]) sampleCbb
      sampleProposedRecAoW "book_artofwar" sampleAvailableAoW
      (by decide) (by decide) (by decide) (by decide) (by decide)).1
      (by decide)⟩

/-- C4 counterexample: a malformed-structured-output failure (`ValueError`
from JSON parsing) does NOT degrade to the deterministic minimal fallback
routing (the `_mock_route` result recommending the first available book);
it yields an error refusal with `is_valid=false` and no paths.  Only the
broad `except Exception` branch produces the fallback routing.  (No raw
exception escapes either way, but the claim's "degrades to a ... fallback
routing result" is false for the `ValueError` case.) -/
theorem C4_counterexample :
    llm_route sampleGate "q" "Philosophy" none [sampleAvailable1]
      emptyChapters ProposerOutcome.valueError =
      { paths := []
        is_valid := false
        refusal_reason := some "Error processing routing request" } ∧
    (llm_route sampleGate "q" "Philosophy" none [sampleAvailable1]
      emptyChapters ProposerOutcome.valueError).is_valid = false ∧
    llm_route sampleGate "q" "Philosophy" none [sampleAvailable1]
      emptyChapters ProposerOutcome.valueError ≠
      mock_route [sampleAvailable1]
        (mergeGateChapters sampleGate.artifacts
          (sampleGate.get_candidate_books (map_to_ids "Philosophy" none).1
            (map_to_ids "Philosophy" none).2 12) emptyChapters) := by
  decide

/-- C4 amended: every modelled proposer failure is caught and returns a
`RoutingResult` — a `ValueError` (malformed structured output) yields the
fixed refusal result, and any other exception yields the deterministic
`_mock_route` fallback (a valid result); the caller never receives a raw
exception. -/
theorem C4_amended_exception_handling (g : TaxonomyGateV2) (q domain : String)
    (sd : Option String) (books : List Book)
    (cbb : String → List ChapterDict)
    (h1 : ¬ g.get_candidate_books (map_to_ids domain sd).1
      (map_to_ids domain sd).2 12 = [])
    (h2 : ¬ books.filter (fun b => (g.get_candidate_books (map_to_ids domain sd).1
      (map_to_ids domain sd).2 12).contains b.id) = []) :
    llm_route g q domain sd books cbb ProposerOutcome.valueError =
      { paths := []
        is_valid := false
        refusal_reason := some "Error processing routing request" } ∧
    llm_route g q domain sd books cbb ProposerOutcome.otherError =
      mock_route books (mergeGateChapters g.artifacts
        (g.get_candidate_books (map_to_ids domain sd).1
          (map_to_ids domain sd).2 12) cbb) ∧
    (mock_route books (mergeGateChapters g.artifacts
      (g.get_candidate_books (map_to_ids domain sd).1
        (map_to_ids domain sd).2 12) cbb)).is_valid = true :=
  ⟨llm_route_value_error g q domain sd books cbb h1 h2,
   llm_route_other_error g q domain sd books cbb h1 h2,
   (mock_route_spec books _).1⟩

/-- Witness for the amended C4 on concrete data: both error branches
return the stated results. -/
theorem C4_amended_exception_handling_witness :
    llm_route sampleGate "q" "Philosophy" none [sampleAvailable1]
      emptyChapters ProposerOutcome.valueError =
      { paths := []
        is_valid := false
        refusal_reason := some "Error processing routing request" } ∧
    llm_route sampleGate "q" "Philosophy" none [sampleAvailable1]
      emptyChapters ProposerOutcome.otherError =
      mock_route [sampleAvailable1] (mergeGateChapters sampleGate.artifacts
        (sampleGate.get_candidate_books (map_to_ids "Philosophy" none).1
          (map_to_ids "Philosophy" none).2 12) emptyChapters) :=
  ⟨(C4_amended_exception_handling sampleGate "q" "Philosophy" none
      [sampleAvailable1] emptyChapters (by decide) (by decide)).1,
   (C4_amended_exception_handling sampleGate "q" "Philosophy" none
      [sampleAvailable1] emptyChapters (by decide) (by decide)).2.1⟩

/-- C1 counterexample, two failures of the claim as stated.  First, the
validation loop enforces no per-path cap of two: a proposed path with three
valid recommendations is kept whole (only the global cap of six applies),
so a valid result can contain a path with three recommendations.  Second,
the mock route (used both in mock mode and as the exception fallback)
returns `is_valid=true` with ZERO paths when given no available books,
violating the lower bound of one path. -/
theorem C1_counterexample :
    (llm_route sampleGate "q" "Philosophy" none [sampleAvailable1]
      emptyChapters (ProposerOutcome.ok [sampleProposedPath3])).is_valid = true ∧
    ((llm_route sampleGate "q" "Philosophy" none [sampleAvailable1]
      emptyChapters (ProposerOutcome.ok [sampleProposedPath3])).paths.map
        (fun p => p.recommendations.length)) = [3] ∧
    (mock_route [] emptyChapters).is_valid = true ∧
    (mock_route [] emptyChapters).paths.length = 0 := by
  decide

/-- C1 amended: every `is_valid=true` result of the validated route has
between 1 and 4 paths, each path has between 1 and 6 recommendations (the
per-path cap of two is NOT enforced), and the total is at most 6; the mock
route (mock mode and exception fallback) always returns `is_valid=true`
with at most two single-recommendation paths, empty exactly when no books
are available. -/
theorem C1_amended_caps (g : TaxonomyGateV2) (q domain : String)
    (sd : Option String) (books : List Book)
    (cbb : String → List ChapterDict) (prop : ProposerOutcome) :
    ((llm_route g q domain sd books cbb prop).is_valid = true →
      1 ≤ (llm_route g q domain sd books cbb prop).paths.length ∧
      (llm_route g q domain sd books cbb prop).paths.length ≤ 4 ∧
      (llm_route g q domain sd books cbb prop).total_count ≤ 6 ∧
      ∀ p ∈ (llm_route g q domain sd books cbb prop).paths,
        1 ≤ p.recommendations.length ∧ p.recommendations.length ≤ 6) ∧
    ((mock_route books cbb).is_valid = true ∧
      (mock_route books cbb).paths.length ≤ 2 ∧
      (mock_route books cbb).total_count ≤ 2 ∧
      (∀ p ∈ (mock_route books cbb).paths, p.recommendations.length = 1) ∧
      ((mock_route books cbb).paths = [] ↔ books = [])) := by
  refine ⟨?_, mock_route_spec books cbb⟩
  intro hvalid
  by_cases h1 : g.get_candidate_books (map_to_ids domain sd).1
      (map_to_ids domain sd).2 12 = []
  · rw [llm_route_unmapped g q domain sd books cbb prop h1] at hvalid
    simp at hvalid
  · by_cases h2 : books.filter (fun b =>
        (g.get_candidate_books (map_to_ids domain sd).1
          (map_to_ids domain sd).2 12).contains b.id) = []
    · rw [llm_route_no_candidates g q domain sd books cbb prop h1 h2] at hvalid
      simp at hvalid
    · cases prop with
      | valueError =>
        rw [llm_route_value_error g q domain sd books cbb h1 h2] at hvalid
        simp at hvalid
      | otherError =>
        have heq := llm_route_other_error g q domain sd books cbb h1 h2
        rw [heq]
        have hbooks : ¬ books = [] := by
          intro hb
          rw [hb] at h2
          simp at h2
        obtain ⟨mv, mlen, mtot, mone, miff⟩ := mock_route_spec books
          (mergeGateChapters g.artifacts
            (g.get_candidate_books (map_to_ids domain sd).1
              (map_to_ids domain sd).2 12) cbb)
        have hne : ¬ (mock_route books (mergeGateChapters g.artifacts
            (g.get_candidate_books (map_to_ids domain sd).1
              (map_to_ids domain sd).2 12) cbb)).paths = [] := by
          intro hp
          exact hbooks (miff.mp hp)
        refine ⟨List.length_pos.mpr hne, by omega, by omega, ?_⟩
        intro p hp
        have := mone p hp
        omega
      | ok pds =>
        by_cases h3 : buildPaths g.artifacts
            (booksById (books.filter (fun b =>
              (g.get_candidate_books (map_to_ids domain sd).1
                (map_to_ids domain sd).2 12).contains b.id)))
            (mergeGateChapters g.artifacts
              (g.get_candidate_books (map_to_ids domain sd).1
                (map_to_ids domain sd).2 12) cbb) pds 0 0 = []
        · rw [llm_route_ok_empty g q domain sd books cbb pds h1 h2 h3] at hvalid
          simp at hvalid
        · rw [llm_route_ok_paths g q domain sd books cbb pds h1 h2 h3]
          have hlen := buildPaths_len g.artifacts
            (booksById (books.filter (fun b =>
              (g.get_candidate_books (map_to_ids domain sd).1
                (map_to_ids domain sd).2 12).contains b.id)))
            (mergeGateChapters g.artifacts
              (g.get_candidate_books (map_to_ids domain sd).1
                (map_to_ids domain sd).2 12) cbb) pds 0 0 (by omega)
          have hsum := buildPaths_sum g.artifacts
            (booksById (books.filter (fun b =>
              (g.get_candidate_books (map_to_ids domain sd).1
                (map_to_ids domain sd).2 12).contains b.id)))
            (mergeGateChapters g.artifacts
              (g.get_candidate_books (map_to_ids domain sd).1
                (map_to_ids domain sd).2 12) cbb) pds 0 0 (by omega)
          have hbounds := buildPaths_path_bounds g.artifacts
            (booksById (books.filter (fun b =>
              (g.get_candidate_books (map_to_ids domain sd).1
                (map_to_ids domain sd).2 12).contains b.id)))
            (mergeGateChapters g.artifacts
              (g.get_candidate_books (map_to_ids domain sd).1
                (map_to_ids domain sd).2 12) cbb) pds 0 0 (by omega)
          refine ⟨List.length_pos.mpr h3, by simpa using hlen,
            by simpa [RoutingResult.total_count] using hsum, hbounds⟩

/-- Witness for the amended C1: a concrete valid result satisfies the
path-count bounds. -/
theorem C1_amended_caps_witness :
    (llm_route sampleGate "q" "Philosophy" none [sampleAvailable1]
      emptyChapters (ProposerOutcome.ok [sampleProposedPath1])).is_valid = true ∧
    1 ≤ (llm_route sampleGate "q" "Philosophy" none [sampleAvailable1]
      emptyChapters (ProposerOutcome.ok [sampleProposedPath1])).paths.length ∧
    (llm_route sampleGate "q" "Philosophy" none [sampleAvailable1]
      emptyChapters (ProposerOutcome.ok [sampleProposedPath1])).paths.length ≤ 4 :=
  ⟨by decide,
   ((C1_amended_caps sampleGate "q" "Philosophy" none [sampleAvailable1]
      emptyChapters (ProposerOutcome.ok [sampleProposedPath1])).1 (by decide)).1,
   ((C1_amended_caps sampleGate "q" "Philosophy" none [sampleAvailable1]
      emptyChapters (ProposerOutcome.ok [sampleProposedPath1])).1 (by decide)).2.1⟩

/-- C2 counterexample: the claim quantifies over every routing result the
router returns, but the mock/fallback path recommends the FIRST available
book regardless of the candidate set and fabricates the placeholder
chapter id `ch_mock_1` (and uses `ch_mock_2` for a book whose gate
chapters carry no `id` key).  Here the exception fallback recommends
`book_unrelated`, which is outside the candidate set and fails
`validate_book_id`, with a chapter id that exists nowhere in the
catalog. -/
theorem C2_counterexample :
    (llm_route sampleGate "q" "Philosophy" none
      [sampleAvailable2, sampleAvailable1] emptyChapters
      ProposerOutcome.otherError).is_valid = true ∧
    ((llm_route sampleGate "q" "Philosophy" none
      [sampleAvailable2, sampleAvailable1] emptyChapters
      ProposerOutcome.otherError).paths.map
        (fun p => p.recommendations.map (fun rec => rec.book_id))) =
      [["book_unrelated"], ["book_meditations"]] ∧
    ¬ "book_unrelated" ∈ sampleGate.get_candidate_books
      (map_to_ids "Philosophy" none).1 (map_to_ids "Philosophy" none).2 12 ∧
    sampleGate.validate_book_id "book_unrelated" = false ∧
    ((llm_route sampleGate "q" "Philosophy" none
      [sampleAvailable2, sampleAvailable1] emptyChapters
      ProposerOutcome.otherError).paths.map
        (fun p => p.recommendations.map (fun rec => rec.chapter_id))) =
      [["ch_mock_1"], ["ch_mock_2"]] ∧
    (∀ c ∈ sampleGate.artifacts.chapters, ¬ c.chapter_id = "ch_mock_1") := by
  decide

/-- C2 amended: every recommendation in a result built from STRUCTURED
proposer output references a book in the gate's candidate set, present
among the caller's available books and validated against the book index,
and its chapter number is the number (default 1 when unnumbered) of an
entry of the merged chapter list for that book; the mock/fallback path
instead recommends the first one or two available books unconditionally
and fabricates a placeholder chapter when none is known. -/
theorem C2_amended_validated_recommendations (g : TaxonomyGateV2)
    (q domain : String) (sd : Option String) (books : List Book)
    (cbb : String → List ChapterDict) (pds : List ProposedPath) :
    ∀ p ∈ (llm_route g q domain sd books cbb (ProposerOutcome.ok pds)).paths,
    ∀ rec ∈ p.recommendations,
      rec.book_id ∈ g.get_candidate_books (map_to_ids domain sd).1
        (map_to_ids domain sd).2 12 ∧
      (∃ b ∈ books, b.id = rec.book_id) ∧
      g.validate_book_id rec.book_id = true ∧
      ∃ c ∈ mergeGateChapters g.artifacts
        (g.get_candidate_books (map_to_ids domain sd).1
          (map_to_ids domain sd).2 12) cbb rec.book_id,
        rec.chapter_number = c.number?.getD 1 := by
  intro p hp rec hrec
  by_cases h1 : g.get_candidate_books (map_to_ids domain sd).1
      (map_to_ids domain sd).2 12 = []
  · rw [llm_route_unmapped g q domain sd books cbb (ProposerOutcome.ok pds) h1]
      at hp
    simp at hp
  · by_cases h2 : books.filter (fun b =>
        (g.get_candidate_books (map_to_ids domain sd).1
          (map_to_ids domain sd).2 12).contains b.id) = []
    · rw [llm_route_no_candidates g q domain sd books cbb
        (ProposerOutcome.ok pds) h1 h2] at hp
      simp at hp
    · by_cases h3 : buildPaths g.artifacts
          (booksById (books.filter (fun b =>
            (g.get_candidate_books (map_to_ids domain sd).1
              (map_to_ids domain sd).2 12).contains b.id)))
          (mergeGateChapters g.artifacts
            (g.get_candidate_books (map_to_ids domain sd).1
              (map_to_ids domain sd).2 12) cbb) pds 0 0 = []
      · rw [llm_route_ok_empty g q domain sd books cbb pds h1 h2 h3] at hp
        simp at hp
      · rw [llm_route_ok_paths g q domain sd books cbb pds h1 h2 h3] at hp
        obtain ⟨pr, hpr⟩ := buildPaths_mem_rec g.artifacts
          (booksById (books.filter (fun b =>
            (g.get_candidate_books (map_to_ids domain sd).1
              (map_to_ids domain sd).2 12).contains b.id)))
          (mergeGateChapters g.artifacts
            (g.get_candidate_books (map_to_ids domain sd).1
              (map_to_ids domain sd).2 12) cbb) pds 0 0 p hp rec hrec
        obtain ⟨hbid, hsome, hval, c, hcmem, hcnum⟩ :=
          processRec_spec _ _ _ _ _ hpr
        rw [booksById_isSome] at hsome
        simp only [List.any_eq_true, decide_eq_true_eq] at hsome
        obtain ⟨b, hbmem, hbeq⟩ := hsome
        rw [List.mem_filter] at hbmem
        obtain ⟨hbooks, hcontains⟩ := hbmem
        have hmemc : b.id ∈ g.get_candidate_books (map_to_ids domain sd).1
            (map_to_ids domain sd).2 12 := List.elem_iff.mp hcontains
        exact ⟨hbeq ▸ hmemc, ⟨b, hbooks, hbeq⟩, hval, c, hcmem, hcnum⟩

/-- The recommendation the validated route produces on the sample data. -/
def sampleOutRec : ReadingRecommendation :=
  { book_id := "book_meditations", book_title := "Meditations",
    book_author := "Marcus Aurelius", chapter_id := "ch_book_meditations_1",
    chapter_number := 1, chapter_title := "Book One", rationale := "why" }

/-- The path the validated route produces on the sample data. -/
def sampleOutPath : ReadingPath :=
  { angle := "Angle", recommendations := [sampleOutRec] }

/-- Witness for the amended C2: the concrete produced recommendation is a
candidate book present among the available books. -/
theorem C2_amended_validated_recommendations_witness :
    sampleOutRec.book_id ∈ sampleGate.get_candidate_books
      (map_to_ids "Philosophy" none).1 (map_to_ids "Philosophy" none).2 12 ∧
    (∃ b ∈ [sampleAvailable1], b.id = sampleOutRec.book_id) :=
  ⟨(C2_amended_validated_recommendations sampleGate "q" "Philosophy" none
      [sampleAvailable1] emptyChapters [sampleProposedPath1] sampleOutPath
      (by decide) sampleOutRec (by decide)).1,
   (C2_amended_validated_recommendations sampleGate "q" "Philosophy" none
      [sampleAvailable1] emptyChapters [sampleProposedPath1] sampleOutPath
      (by decide) sampleOutRec (by decide)).2.1⟩

/-- Witness for the amended C3: after an artifact-version bump the stored
entry is a miss; after a taxonomy-definition-only bump it is still a hit. -/
theorem C3_amended_version_invalidation_witness :
    (((RoutingCache.init 3600).set 0 (routing_cache_taxonomy_version sampleGate)
        "Why act calm?" "Philosophy" none sampleRoutingResult).get 10
        (routing_cache_taxonomy_version sampleGateBumpedArtifact)
        "Why act calm?" "Philosophy" none).1 = none ∧
    (((RoutingCache.init 3600).set 0 (routing_cache_taxonomy_version sampleGate)
        "Why act calm?" "Philosophy" none sampleRoutingResult).get 10
        (routing_cache_taxonomy_version sampleGateBumpedTaxonomy)
        "Why act calm?" "Philosophy" none).1 = some sampleRoutingResult :=
  ⟨(C3_amended_version_invalidation sampleGate sampleGateBumpedArtifact 3600 0 10
      "Why act calm?" "Philosophy" none sampleRoutingResult).1 (by decide),
   (C3_amended_version_invalidation sampleGate sampleGateBumpedTaxonomy 3600 0 10
      "Why act calm?" "Philosophy" none sampleRoutingResult).2 (by decide)
      (by decide)⟩
